import Mathlib

/-
  Verification of the rectangle-in-circle packing engine
  (shallow embedding of src/packing_logic.py).

  Python floats are modelled as real numbers; Python lists of corners as
  functions from Fin 4; bool-returning geometric tests as propositions.
  While-loops are modelled with an explicit fuel parameter (the loops in
  the source terminate because the step sizes are positive; every theorem
  below is proved for an arbitrary fuel value).
-/

namespace PackingLogic

/-- 2D position, from the Python dataclass Position. -/
structure Position where
  x : ℝ
  y : ℝ

/-- Circle with radius and position, from the Python dataclass Circle. -/
structure Circle where
  radius : ℝ
  position : Position

/-- Rectangle with centre position, dimensions and rotation in degrees,
from the Python class Rectangle. -/
structure Rectangle where
  position : Position
  width : ℝ
  height : ℝ
  rotation : ℝ

/-- The four local corner offsets of Rectangle.get_corners, in source
order: (-hw,-hh), (hw,-hh), (hw,hh), (-hw,hh). -/
def local_corners (hw hh : ℝ) : Fin 4 → ℝ × ℝ
  | 0 => (-hw, -hh)
  | 1 => (hw, -hh)
  | 2 => (hw, hh)
  | 3 => (-hw, hh)

/-- Rectangle.get_corners: the four corners after rotating the half-extent
offsets about the centre by rotation degrees (math.radians(x) = x*pi/180). -/
noncomputable def get_corners (r : Rectangle) : Fin 4 → Position := fun i =>
  let rad := r.rotation * Real.pi / 180
  let cos_r := Real.cos rad
  let sin_r := Real.sin rad
  let hw := r.width / 2
  let hh := r.height / 2
  let l := local_corners hw hh i
  ⟨r.position.x + (l.1 * cos_r - l.2 * sin_r),
   r.position.y + (l.1 * sin_r + l.2 * cos_r)⟩

/-- The corners as coordinate pairs, as built in rectangles_overlap
([(c.x, c.y) for c in rect.get_corners()]). -/
noncomputable def corner_pairs (r : Rectangle) : Fin 4 → ℝ × ℝ := fun i =>
  ((get_corners r i).x, (get_corners r i).y)

/-- dot_product from the source. -/
def dot_product (v1 v2 : ℝ × ℝ) : ℝ := v1.1 * v2.1 + v1.2 * v2.2

/-- normalize_vector from the source: returns (0,0) for a zero-length
vector, otherwise divides by the Euclidean length. -/
noncomputable def normalize_vector (v : ℝ × ℝ) : ℝ × ℝ :=
  let length := Real.sqrt (v.1 ^ 2 + v.2 ^ 2)
  if length = 0 then (0, 0) else (v.1 / length, v.2 / length)

/-- get_edge_normal from the source: the normalized perpendicular
(-edge.y, edge.x) of the edge v2 - v1. -/
noncomputable def get_edge_normal (v1 v2 : ℝ × ℝ) : ℝ × ℝ :=
  normalize_vector (-(v2.2 - v1.2), v2.1 - v1.1)

/-- project_polygon from the source: (min, max) of the dot products of the
four vertices with the axis (Python min/max fold left over the list). -/
def project_polygon (axis : ℝ × ℝ) (vs : Fin 4 → ℝ × ℝ) : ℝ × ℝ :=
  (min (min (min (dot_product axis (vs 0)) (dot_product axis (vs 1)))
      (dot_product axis (vs 2))) (dot_product axis (vs 3)),
   max (max (max (dot_product axis (vs 0)) (dot_product axis (vs 1)))
      (dot_product axis (vs 2))) (dot_product axis (vs 3)))

/-- The gap between two 1D projections, computed inside projections_overlap:
gap = min(proj1[1], proj2[1]) - max(proj1[0], proj2[0]). -/
def projection_gap (proj1 proj2 : ℝ × ℝ) : ℝ :=
  min proj1.2 proj2.2 - max proj1.1 proj2.1

/-- The fixed floating-point epsilon of projections_overlap. -/
noncomputable def epsilon : ℝ := 1e-6

/-- projections_overlap from the source: if tolerance < epsilon the
projections count as overlapping iff gap > epsilon, otherwise iff
gap > -tolerance - epsilon. -/
noncomputable def projections_overlap (proj1 proj2 : ℝ × ℝ) (tolerance : ℝ) : Prop :=
  if tolerance < epsilon then projection_gap proj1 proj2 > epsilon
  else projection_gap proj1 proj2 > -tolerance - epsilon

/-- The separating axis tested at loop index i taken from a corner set:
the edge normal of the edge from corner i to corner (i+1) % 4. -/
noncomputable def sat_axis (c : Fin 4 → ℝ × ℝ) (i : Fin 4) : ℝ × ℝ :=
  get_edge_normal (c i) (c (i + 1))

/-- sat_rectangles_collide from the source: the loop returns False as soon
as one of the eight tested axes (four per rectangle, interleaved) yields
non-overlapping projections, and True otherwise; as a proposition this is
the conjunction of the per-axis overlap tests. -/
noncomputable def sat_rectangles_collide (c1 c2 : Fin 4 → ℝ × ℝ) (tolerance : ℝ) : Prop :=
  ∀ i : Fin 4,
    projections_overlap (project_polygon (sat_axis c1 i) c1)
      (project_polygon (sat_axis c1 i) c2) tolerance ∧
    projections_overlap (project_polygon (sat_axis c2 i) c1)
      (project_polygon (sat_axis c2 i) c2) tolerance

/-- rectangles_overlap from the source. -/
noncomputable def rectangles_overlap (rect1 rect2 : Rectangle) (tolerance : ℝ) : Prop :=
  sat_rectangles_collide (corner_pairs rect1) (corner_pairs rect2) tolerance

/-- rectangle_overlaps_any from the source: linear scan with early exit,
i.e. overlap with at least one placed rectangle. -/
noncomputable def rectangle_overlaps_any (rect : Rectangle) (placed : List Rectangle)
    (tolerance : ℝ) : Prop :=
  ∃ placed_rect ∈ placed, rectangles_overlap rect placed_rect tolerance

/-- Axis-aligned unit square, used as concrete input below. -/
noncomputable def unit_sq (cx cy : ℝ) : Rectangle := ⟨⟨cx, cy⟩, 1, 1, 0⟩

-- ===========================================================================
-- The packing engine (class RectanglePacker)
-- ===========================================================================

/-- Result of a packing strategy, from the Python class PackingResult
(field order and defaults as in its __init__). -/
structure PackingResult where
  rectangles : List Rectangle
  circle : Option Circle
  count : ℕ
  strategy : String
  efficiency : ℝ
  waste : ℝ
  used_area : ℝ
  total_area : ℝ

/-- A freshly constructed PackingResult(). -/
def emptyPackingResult : PackingResult := ⟨[], none, 0, "", 0, 0, 0, 0⟩

/-- The configuration stored by RectanglePacker.__init__. -/
structure RectanglePacker where
  circle_diameter : ℝ
  rect_width : ℝ
  rect_height : ℝ
  tolerance : ℝ
  safe_zone : ℝ

/-- self.radius = circle_diameter / 2. -/
noncomputable def RectanglePacker.radius (p : RectanglePacker) : ℝ :=
  p.circle_diameter / 2

/-- self.effective_radius = radius - safe_zone. -/
noncomputable def RectanglePacker.effective_radius (p : RectanglePacker) : ℝ :=
  p.radius - p.safe_zone

/-- _rectangle_fits_in_circle: the corner loop returns False as soon as a
corner has distance > effective_radius from the origin, True otherwise. -/
noncomputable def rectangle_fits_in_circle (p : RectanglePacker) (rect : Rectangle) : Prop :=
  ∀ i : Fin 4,
    ¬ Real.sqrt ((get_corners rect i).x ^ 2 + (get_corners rect i).y ^ 2) > p.effective_radius

/-- _validate_no_overlaps: the double loop over index pairs i < j returns
False as soon as some pair overlaps at the configured tolerance. -/
noncomputable def validate_no_overlaps (p : RectanglePacker) (rectangles : List Rectangle) : Prop :=
  List.Pairwise (fun a b => ¬ rectangles_overlap a b p.tolerance) rectangles

/-- Python int(): truncation towards zero. -/
noncomputable def int_trunc (x : ℝ) : ℤ := if 0 ≤ x then ⌊x⌋ else ⌈x⌉

/-- Python range(a, b) over integers. -/
def int_range (a b : ℤ) : List ℤ := (List.range (b - a).toNat).map fun n => a + n

/-- State of the base-grid generation: accepted rectangles plus the tracked
bounds (min_x, max_x, min_y, max_y). The source initializes the bounds to
+-infinity and only reads them when at least one rectangle was accepted;
the never-updated case is modelled as none. -/
structure GridState where
  rects : List Rectangle
  bounds : Option (ℝ × ℝ × ℝ × ℝ)

open Classical in
/-- Bounds update performed when a grid rectangle is accepted
(min/max against the rectangle's edges). -/
noncomputable def update_bounds (b : Option (ℝ × ℝ × ℝ × ℝ)) (center_x center_y w h : ℝ) :
    Option (ℝ × ℝ × ℝ × ℝ) :=
  match b with
  | none => some (center_x - w / 2, center_x + w / 2, center_y - h / 2, center_y + h / 2)
  | some (mnx, mxx, mny, mxy) =>
      some (min mnx (center_x - w / 2), max mxx (center_x + w / 2),
            min mny (center_y - h / 2), max mxy (center_y + h / 2))

open Classical in
/-- One row (fixed r, loop over c) of the base-grid generation of
_strict_grid_packing: grid cell, candidate rectangle, keep it if it fits. -/
noncomputable def grid_row (p : RectanglePacker) (rotation w h grid_step_x start_x offset_x y : ℝ)
    (cols : ℕ) (st : GridState) : GridState :=
  (List.range cols).foldl (fun st c =>
    let x := start_x + c * grid_step_x + offset_x
    let center_x := x + w / 2
    let center_y := y + h / 2
    let rect : Rectangle := ⟨⟨center_x, center_y⟩, p.rect_width, p.rect_height, rotation⟩
    if rectangle_fits_in_circle p rect then
      ⟨st.rects ++ [rect], update_bounds st.bounds center_x center_y w h⟩
    else st) st

/-- The full base grid (loop over r, then over c). -/
noncomputable def generate_grid (p : RectanglePacker)
    (rotation w h grid_step_x grid_step_y start_x start_y offset_x offset_y : ℝ)
    (rows cols : ℕ) : GridState :=
  (List.range rows).foldl (fun st r =>
    grid_row p rotation w h grid_step_x start_x offset_x (start_y + r * grid_step_y + offset_y)
      cols st) ⟨[], none⟩

open Classical in
/-- The inner Y scan of the right/left edge fills: for k in
range(k_start, k_end), place an alternate-orientation rectangle at
(curr_x, start_scan_y + k*ortho_step_y) if it fits and does not overlap. -/
noncomputable def scan_y (p : RectanglePacker) (alt_rotation ortho_step_y start_scan_y curr_x : ℝ)
    (acc : List Rectangle) : List Rectangle :=
  let k_start := int_trunc ((-p.radius - start_scan_y) / ortho_step_y) - 1
  let k_end := int_trunc ((p.radius - start_scan_y) / ortho_step_y) + 2
  (int_range k_start k_end).foldl (fun acc k =>
    let curr_y := start_scan_y + k * ortho_step_y
    let new_rect : Rectangle := ⟨⟨curr_x, curr_y⟩, p.rect_width, p.rect_height, alt_rotation⟩
    if rectangle_fits_in_circle p new_rect ∧
        ¬ rectangle_overlaps_any new_rect acc p.tolerance then
      acc ++ [new_rect]
    else acc) acc

open Classical in
/-- The inner X scan of the top/bottom edge fills. -/
noncomputable def scan_x (p : RectanglePacker) (alt_rotation ortho_step_x start_scan_x curr_y : ℝ)
    (acc : List Rectangle) : List Rectangle :=
  let k_start := int_trunc ((-p.radius - start_scan_x) / ortho_step_x) - 1
  let k_end := int_trunc ((p.radius - start_scan_x) / ortho_step_x) + 2
  (int_range k_start k_end).foldl (fun acc k =>
    let curr_x := start_scan_x + k * ortho_step_x
    let new_rect : Rectangle := ⟨⟨curr_x, curr_y⟩, p.rect_width, p.rect_height, alt_rotation⟩
    if rectangle_fits_in_circle p new_rect ∧
        ¬ rectangle_overlaps_any new_rect acc p.tolerance then
      acc ++ [new_rect]
    else acc) acc

open Classical in
/-- Fill Right: while curr_x - ortho_w/2 < radius, scan the Y range at
curr_x and step outward by ortho_step_x. -/
noncomputable def fill_right (p : RectanglePacker)
    (alt_rotation ortho_w ortho_step_x ortho_step_y start_scan_y : ℝ) :
    ℕ → ℝ → List Rectangle → List Rectangle
  | 0, _, acc => acc
  | fuel + 1, curr_x, acc =>
    if curr_x - ortho_w / 2 < p.radius then
      fill_right p alt_rotation ortho_w ortho_step_x ortho_step_y start_scan_y fuel
        (curr_x + ortho_step_x) (scan_y p alt_rotation ortho_step_y start_scan_y curr_x acc)
    else acc

open Classical in
/-- Fill Left: while curr_x + ortho_w/2 > -radius, stepping inward. -/
noncomputable def fill_left (p : RectanglePacker)
    (alt_rotation ortho_w ortho_step_x ortho_step_y start_scan_y : ℝ) :
    ℕ → ℝ → List Rectangle → List Rectangle
  | 0, _, acc => acc
  | fuel + 1, curr_x, acc =>
    if curr_x + ortho_w / 2 > -p.radius then
      fill_left p alt_rotation ortho_w ortho_step_x ortho_step_y start_scan_y fuel
        (curr_x - ortho_step_x) (scan_y p alt_rotation ortho_step_y start_scan_y curr_x acc)
    else acc

open Classical in
/-- Fill Top: while curr_y - ortho_h/2 < radius. -/
noncomputable def fill_top (p : RectanglePacker)
    (alt_rotation ortho_h ortho_step_x ortho_step_y start_scan_x : ℝ) :
    ℕ → ℝ → List Rectangle → List Rectangle
  | 0, _, acc => acc
  | fuel + 1, curr_y, acc =>
    if curr_y - ortho_h / 2 < p.radius then
      fill_top p alt_rotation ortho_h ortho_step_x ortho_step_y start_scan_x fuel
        (curr_y + ortho_step_y) (scan_x p alt_rotation ortho_step_x start_scan_x curr_y acc)
    else acc

open Classical in
/-- Fill Bottom: while curr_y + ortho_h/2 > -radius. -/
noncomputable def fill_bottom (p : RectanglePacker)
    (alt_rotation ortho_h ortho_step_x ortho_step_y start_scan_x : ℝ) :
    ℕ → ℝ → List Rectangle → List Rectangle
  | 0, _, acc => acc
  | fuel + 1, curr_y, acc =>
    if curr_y + ortho_h / 2 > -p.radius then
      fill_bottom p alt_rotation ortho_h ortho_step_x ortho_step_y start_scan_x fuel
        (curr_y - ortho_step_y) (scan_x p alt_rotation ortho_step_x start_scan_x curr_y acc)
    else acc

open Classical in
/-- Top Center fill: while curr_y + h/2 <= radius, stack a base-orientation
rectangle at the grid's horizontal midpoint; stop as soon as a candidate
fails to fit or overlaps. -/
noncomputable def center_top (p : RectanglePacker) (rotation h grid_step_y grid_center_x : ℝ) :
    ℕ → ℝ → List Rectangle → List Rectangle
  | 0, _, acc => acc
  | fuel + 1, curr_y, acc =>
    if curr_y + h / 2 ≤ p.radius then
      let new_rect : Rectangle := ⟨⟨grid_center_x, curr_y⟩, p.rect_width, p.rect_height, rotation⟩
      if rectangle_fits_in_circle p new_rect ∧
          ¬ rectangle_overlaps_any new_rect acc p.tolerance then
        center_top p rotation h grid_step_y grid_center_x fuel (curr_y + grid_step_y)
          (acc ++ [new_rect])
      else acc
    else acc

open Classical in
/-- Bottom Center fill: while curr_y - h/2 >= -radius. -/
noncomputable def center_bottom (p : RectanglePacker) (rotation h grid_step_y grid_center_x : ℝ) :
    ℕ → ℝ → List Rectangle → List Rectangle
  | 0, _, acc => acc
  | fuel + 1, curr_y, acc =>
    if curr_y - h / 2 ≥ -p.radius then
      let new_rect : Rectangle := ⟨⟨grid_center_x, curr_y⟩, p.rect_width, p.rect_height, rotation⟩
      if rectangle_fits_in_circle p new_rect ∧
          ¬ rectangle_overlaps_any new_rect acc p.tolerance then
        center_bottom p rotation h grid_step_y grid_center_x fuel (curr_y - grid_step_y)
          (acc ++ [new_rect])
      else acc
    else acc

open Classical in
/-- The body of the systematic scan at one position: try rotation 0 first,
then 90, accepting the first rectangle that fits and does not overlap. -/
noncomputable def try_both_rotations (p : RectanglePacker) (x y : ℝ) (acc : List Rectangle) :
    List Rectangle :=
  let rect0 : Rectangle := ⟨⟨x, y⟩, p.rect_width, p.rect_height, 0⟩
  if rectangle_fits_in_circle p rect0 ∧ ¬ rectangle_overlaps_any rect0 acc p.tolerance then
    acc ++ [rect0]
  else
    let rect90 : Rectangle := ⟨⟨x, y⟩, p.rect_width, p.rect_height, 90⟩
    if rectangle_fits_in_circle p rect90 ∧ ¬ rectangle_overlaps_any rect90 acc p.tolerance then
      acc ++ [rect90]
    else acc

open Classical in
/-- Inner X loop of _systematic_gap_fill: while x <= radius. -/
noncomputable def gap_fill_x (p : RectanglePacker) (scan_step y : ℝ) :
    ℕ → ℝ → List Rectangle → List Rectangle
  | 0, _, acc => acc
  | fuel + 1, x, acc =>
    if x ≤ p.radius then
      gap_fill_x p scan_step y fuel (x + scan_step) (try_both_rotations p x y acc)
    else acc

open Classical in
/-- Outer Y loop of _systematic_gap_fill: while y <= radius, scanning the
X range (which restarts at -radius) at each row. -/
noncomputable def gap_fill_y (p : RectanglePacker) (scan_step : ℝ) (inner_fuel : ℕ) :
    ℕ → ℝ → List Rectangle → List Rectangle
  | 0, _, acc => acc
  | fuel + 1, y, acc =>
    if y ≤ p.radius then
      gap_fill_y p scan_step inner_fuel fuel (y + scan_step)
        (gap_fill_x p scan_step y inner_fuel (-p.radius) acc)
    else acc

/-- _systematic_gap_fill with scan step min(rect_width, rect_height)/2,
starting at (-radius, -radius). -/
noncomputable def systematic_gap_fill (p : RectanglePacker) (fuel : ℕ)
    (placed_rectangles : List Rectangle) : List Rectangle :=
  let scan_step := min p.rect_width p.rect_height / 2
  gap_fill_y p scan_step fuel fuel (-p.radius) placed_rectangles

open Classical in
/-- One offset combination (i, j) of the offset search in
_strict_grid_packing: base grid, the four directional edge fills, a first
best-count update, the two center fills and a second best-count update.
The source guards the fill block by `if current_rects:`; the grid bounds
are set exactly when at least one grid rectangle was accepted, so this is
the match on the tracked bounds. -/
noncomputable def offset_step (p : RectanglePacker)
    (rotation alt_rotation w h ortho_w ortho_h grid_step_x grid_step_y ortho_step_x
      ortho_step_y : ℝ) (fuel : ℕ) (i j : ℕ) (best : List Rectangle × ℕ) :
    List Rectangle × ℕ :=
  let offset_x := grid_step_x / 10 * i
  let offset_y := grid_step_y / 10 * j
  let start_x := -p.radius - w
  let start_y := -p.radius - h
  let cols := (int_trunc ((p.circle_diameter + 2 * w) / grid_step_x) + 2).toNat
  let rows := (int_trunc ((p.circle_diameter + 2 * h) / grid_step_y) + 2).toNat
  let st := generate_grid p rotation w h grid_step_x grid_step_y start_x start_y offset_x offset_y
    rows cols
  match st.bounds with
  | none => best
  | some (min_x, max_x, min_y, max_y) =>
    let f1 := fill_right p alt_rotation ortho_w ortho_step_x ortho_step_y (min_y + ortho_h / 2)
      fuel (max_x + p.tolerance + ortho_w / 2) st.rects
    let f2 := fill_left p alt_rotation ortho_w ortho_step_x ortho_step_y (min_y + ortho_h / 2)
      fuel (min_x - p.tolerance - ortho_w / 2) f1
    let f3 := fill_top p alt_rotation ortho_h ortho_step_x ortho_step_y (min_x + ortho_w / 2)
      fuel (max_y + p.tolerance + ortho_h / 2) f2
    let f4 := fill_bottom p alt_rotation ortho_h ortho_step_x ortho_step_y (min_x + ortho_w / 2)
      fuel (min_y - p.tolerance - ortho_h / 2) f3
    let best1 := if f4.length > best.2 then (f4, f4.length) else best
    let grid_center_x := (min_x + max_x) / 2
    let f5 := center_top p rotation h grid_step_y grid_center_x fuel
      (max_y + p.tolerance + h / 2) f4
    let f6 := center_bottom p rotation h grid_step_y grid_center_x fuel
      (min_y - p.tolerance - h / 2) f5
    if f6.length > best1.2 then (f6, f6.length) else best1

open Classical in
/-- _strict_grid_packing for a base rotation: footprint selection, the
10x10 offset search, and the final systematic gap fill applied to the best
rectangle list (when non-empty). -/
noncomputable def strict_grid_packing (p : RectanglePacker) (rotation : ℝ) (fuel : ℕ) :
    PackingResult :=
  let w := if rotation = 90 then p.rect_height else p.rect_width
  let h := if rotation = 90 then p.rect_width else p.rect_height
  let alt_rotation : ℝ := if rotation = 90 then 0 else 90
  let ortho_w := h
  let ortho_h := w
  let grid_step_x := w + p.tolerance
  let grid_step_y := h + p.tolerance
  let ortho_step_x := ortho_w + p.tolerance
  let ortho_step_y := ortho_h + p.tolerance
  let best := (List.range 10).foldl (fun best i =>
    (List.range 10).foldl (fun best j =>
      offset_step p rotation alt_rotation w h ortho_w ortho_h grid_step_x grid_step_y
        ortho_step_x ortho_step_y fuel i j best) best) ([], 0)
  let final := if best.1.isEmpty then best
    else
      let g := systematic_gap_fill p fuel best.1
      (g, g.length)
  { rectangles := final.1
    circle := some ⟨p.radius, ⟨0, 0⟩⟩
    count := final.2
    strategy := "Strict Grid (Rot: " ++ (if rotation = 90 then "90" else "0") ++ "° + Fill)"
    efficiency := 0
    waste := 0
    used_area := 0
    total_area := 0 }

open Classical in
/-- _calculate_efficiency: computes total circle area, the summed nominal
rectangle area and the efficiency/waste percentages on the given result
(no-op when the circle is unset). -/
noncomputable def calculate_efficiency (p : RectanglePacker) (result : PackingResult) :
    PackingResult :=
  match result.circle with
  | none => result
  | some c =>
    let total_area := Real.pi * c.radius ^ 2
    let used_area := (result.rectangles.map fun _ => p.rect_width * p.rect_height).sum
    if total_area > 0 then
      { result with
        total_area := total_area
        used_area := used_area
        efficiency := used_area / total_area * 100
        waste := 100 - used_area / total_area * 100 }
    else
      { result with
        total_area := total_area
        used_area := used_area
        efficiency := 0
        waste := 100 }

/-- Python max(results, key=count): the first element of maximal count. -/
def max_by_count (r : PackingResult) (rs : List PackingResult) : PackingResult :=
  rs.foldl (fun acc s => if s.count > acc.count then s else acc) r

open Classical in
/-- find_optimal_packing: run the strict grid strategy for rotations 0 and
90, keep the candidates passing the final overlap validation, pick the
best valid candidate by count (falling back to the best unvalidated
candidate if none validates), and compute the efficiency metrics. -/
noncomputable def find_optimal_packing (p : RectanglePacker) (fuel : ℕ) : PackingResult :=
  let results := [strict_grid_packing p 0 fuel, strict_grid_packing p 90 fuel]
  let valid_results := results.filter fun r =>
    if validate_no_overlaps p r.rectangles then true else false
  let best := match valid_results with
    | r :: rs => max_by_count r rs
    | [] => match results with
      | r :: rs => max_by_count r rs
      | [] => emptyPackingResult
  calculate_efficiency p best

/-- The guard hypothesis used below: Q holds of every rectangle with the
packer's dimensions and the given rotation that fits in the circle. -/
def GuardOK (p : RectanglePacker) (rot : ℝ) (Q : Rectangle → Prop) : Prop :=
  ∀ x y : ℝ, rectangle_fits_in_circle p ⟨⟨x, y⟩, p.rect_width, p.rect_height, rot⟩ →
    Q ⟨⟨x, y⟩, p.rect_width, p.rect_height, rot⟩

-- ===========================================================================
-- Basic facts about the projection test
-- ===========================================================================

lemma epsilon_eq : epsilon = 1 / 1000000 := by norm_num [epsilon]

lemma projection_gap_comm (p1 p2 : ℝ × ℝ) : projection_gap p1 p2 = projection_gap p2 p1 := by
  unfold projection_gap
  rw [min_comm, max_comm]

lemma projections_overlap_comm (p1 p2 : ℝ × ℝ) (t : ℝ) :
    projections_overlap p1 p2 t ↔ projections_overlap p2 p1 t := by
  unfold projections_overlap
  rw [projection_gap_comm]

-- ===========================================================================
-- C2: the gap-based specification of projections_overlap
-- ===========================================================================

/-- C2: projections_overlap computes gap = min(max1, max2) - max(min1, min2)
and, with epsilon = 1e-6, returns true exactly when gap > epsilon if
tolerance < epsilon, and exactly when gap > -tolerance - epsilon if
tolerance >= epsilon; in particular two projections with gap = 0 are not
flagged as overlapping at tolerance 0. -/
theorem projections_overlap_spec (p1 p2 : ℝ × ℝ) (t : ℝ) :
    (t < 1 / 1000000 →
      (projections_overlap p1 p2 t ↔ projection_gap p1 p2 > 1 / 1000000)) ∧
    (1 / 1000000 ≤ t →
      (projections_overlap p1 p2 t ↔ projection_gap p1 p2 > -t - 1 / 1000000)) ∧
    (projection_gap p1 p2 = 0 → ¬ projections_overlap p1 p2 0) := by
  refine ⟨fun ht => ?_, fun ht => ?_, fun hg => ?_⟩
  · rw [projections_overlap, if_pos (by rw [epsilon_eq]; exact ht), epsilon_eq]
  · rw [projections_overlap, if_neg (by rw [epsilon_eq]; exact not_lt.mpr ht), epsilon_eq]
  · rw [projections_overlap, if_pos (by rw [epsilon_eq]; norm_num), hg, epsilon_eq]
    norm_num

/-- Witness for C2 at a concrete touching pair: the projections (0,1) and
(1,2) have gap 0 and are not flagged at tolerance 0. -/
theorem projections_overlap_spec_witness :
    projection_gap (0, 1) (1, 2) = 0 ∧ ¬ projections_overlap (0, 1) (1, 2) 0 := by
  have hg : projection_gap (0, 1) (1, 2) = 0 := by
    norm_num [projection_gap]
  exact ⟨hg, (projections_overlap_spec (0, 1) (1, 2) 0).2.2 hg⟩

-- ===========================================================================
-- C8: symmetry of the pairwise overlap test
-- ===========================================================================

lemma sat_rectangles_collide_comm (c1 c2 : Fin 4 → ℝ × ℝ) (t : ℝ) :
    sat_rectangles_collide c1 c2 t ↔ sat_rectangles_collide c2 c1 t := by
  constructor <;> intro h i <;>
    exact ⟨(projections_overlap_comm _ _ _).mp (h i).2,
           (projections_overlap_comm _ _ _).mp (h i).1⟩

/-- C8: the pairwise overlap test is symmetric: for every pair of
rectangles and every tolerance, rectangles_overlap(A, B, tolerance) agrees
with rectangles_overlap(B, A, tolerance). -/
theorem rectangles_overlap_symm (rect1 rect2 : Rectangle) (t : ℝ) :
    rectangles_overlap rect1 rect2 t ↔ rectangles_overlap rect2 rect1 t :=
  sat_rectangles_collide_comm _ _ _

-- ===========================================================================
-- C10: monotonicity of the collision test in the tolerance
-- ===========================================================================

lemma projections_overlap_mono {p1 p2 : ℝ × ℝ} {t1 t2 : ℝ} (h0 : 0 ≤ t1) (h12 : t1 ≤ t2)
    (h : projections_overlap p1 p2 t1) : projections_overlap p1 p2 t2 := by
  unfold projections_overlap at h ⊢
  have heps : (0 : ℝ) < epsilon := by rw [epsilon_eq]; norm_num
  by_cases h1 : t1 < epsilon
  · rw [if_pos h1] at h
    by_cases h2 : t2 < epsilon
    · rwa [if_pos h2]
    · rw [if_neg h2]
      have h2' : epsilon ≤ t2 := not_lt.mp h2
      calc -t2 - epsilon < epsilon := by nlinarith
        _ < projection_gap p1 p2 := h
  · rw [if_neg h1] at h
    rw [if_neg (by intro h2; exact h1 (lt_of_le_of_lt h12 h2))]
    calc -t2 - epsilon ≤ -t1 - epsilon := by linarith
      _ < projection_gap p1 p2 := h

/-- C10: collision detection is monotone in the tolerance: for 0 <= t1 <= t2,
if projections_overlap flags a pair of projections at t1 it also flags it at
t2, and consequently sat_rectangles_collide on fixed corner sets is monotone
in the tolerance, despite the threshold switch at tolerance = 1e-6. -/
theorem projections_overlap_monotone_tolerance :
    (∀ (p1 p2 : ℝ × ℝ) (t1 t2 : ℝ), 0 ≤ t1 → t1 ≤ t2 →
      projections_overlap p1 p2 t1 → projections_overlap p1 p2 t2) ∧
    (∀ (c1 c2 : Fin 4 → ℝ × ℝ) (t1 t2 : ℝ), 0 ≤ t1 → t1 ≤ t2 →
      sat_rectangles_collide c1 c2 t1 → sat_rectangles_collide c1 c2 t2) := by
  constructor
  · exact fun p1 p2 t1 t2 h0 h12 h => projections_overlap_mono h0 h12 h
  · intro c1 c2 t1 t2 h0 h12 h i
    exact ⟨projections_overlap_mono h0 h12 (h i).1,
           projections_overlap_mono h0 h12 (h i).2⟩

/-- Witness for C10: the overlapping projections (0,2) and (1,3) are
flagged at tolerance 0 and hence also at tolerance 1. -/
theorem projections_overlap_monotone_tolerance_witness :
    projections_overlap (0, 2) (1, 3) 1 := by
  refine projections_overlap_monotone_tolerance.1 (0, 2) (1, 3) 0 1 le_rfl
    (by norm_num) ?_
  rw [projections_overlap, if_pos (by rw [epsilon_eq]; norm_num), epsilon_eq]
  norm_num [projection_gap]

-- ===========================================================================
-- Concrete evaluation of corners and axes for axis-aligned rectangles
-- ===========================================================================

lemma corner_pairs_rot0 (cx cy w h : ℝ) :
    corner_pairs ⟨⟨cx, cy⟩, w, h, 0⟩ =
      ![(cx - w / 2, cy - h / 2), (cx + w / 2, cy - h / 2),
        (cx + w / 2, cy + h / 2), (cx - w / 2, cy + h / 2)] := by
  funext i
  fin_cases i <;>
    simp [corner_pairs, get_corners, local_corners, Prod.ext_iff] <;>
    ring_nf <;> try constructor <;> ring

lemma normalize_vector_pos_x {a : ℝ} (ha : 0 < a) : normalize_vector (a, 0) = (1, 0) := by
  have h : Real.sqrt (a ^ 2 + 0 ^ 2) = a := by
    rw [show a ^ 2 + 0 ^ 2 = a ^ 2 by ring, Real.sqrt_sq ha.le]
  simp only [normalize_vector, h, Prod.ext_iff]
  rw [if_neg ha.ne']
  constructor
  · exact div_self ha.ne'
  · exact zero_div a

lemma normalize_vector_neg_x {a : ℝ} (ha : 0 < a) : normalize_vector (-a, 0) = (-1, 0) := by
  have h : Real.sqrt ((-a) ^ 2 + 0 ^ 2) = a := by
    rw [show (-a) ^ 2 + 0 ^ 2 = a ^ 2 by ring, Real.sqrt_sq ha.le]
  simp only [normalize_vector, h, Prod.ext_iff]
  rw [if_neg ha.ne']
  constructor
  · rw [neg_div, div_self ha.ne']
  · exact zero_div a

lemma normalize_vector_pos_y {a : ℝ} (ha : 0 < a) : normalize_vector (0, a) = (0, 1) := by
  have h : Real.sqrt (0 ^ 2 + a ^ 2) = a := by
    rw [show (0:ℝ) ^ 2 + a ^ 2 = a ^ 2 by ring, Real.sqrt_sq ha.le]
  simp only [normalize_vector, h, Prod.ext_iff]
  rw [if_neg ha.ne']
  constructor
  · exact zero_div a
  · exact div_self ha.ne'

lemma normalize_vector_neg_y {a : ℝ} (ha : 0 < a) : normalize_vector (0, -a) = (0, -1) := by
  have h : Real.sqrt (0 ^ 2 + (-a) ^ 2) = a := by
    rw [show (0:ℝ) ^ 2 + (-a) ^ 2 = a ^ 2 by ring, Real.sqrt_sq ha.le]
  simp only [normalize_vector, h, Prod.ext_iff]
  rw [if_neg ha.ne']
  constructor
  · exact zero_div a
  · rw [neg_div, div_self ha.ne']

/-- The four axes tested by the SAT loop on an axis-aligned (rotation 0)
rectangle are the unit directions (0,1), (-1,0), (0,-1), (1,0). -/
lemma sat_axis_rot0 (cx cy w h : ℝ) (hw : 0 < w) (hh : 0 < h) :
    sat_axis (corner_pairs ⟨⟨cx, cy⟩, w, h, 0⟩) =
      ![(0, 1), (-1, 0), (0, -1), (1, 0)] := by
  rw [corner_pairs_rot0]
  funext i
  fin_cases i
  · show get_edge_normal (cx - w / 2, cy - h / 2) (cx + w / 2, cy - h / 2) = (0, 1)
    rw [get_edge_normal, show (-((cy - h / 2) - (cy - h / 2)), (cx + w / 2) - (cx - w / 2))
      = ((0 : ℝ), w) by rw [Prod.mk.injEq]; constructor <;> ring]
    exact normalize_vector_pos_y hw
  · show get_edge_normal (cx + w / 2, cy - h / 2) (cx + w / 2, cy + h / 2) = (-1, 0)
    rw [get_edge_normal, show (-((cy + h / 2) - (cy - h / 2)), (cx + w / 2) - (cx + w / 2))
      = (-(h : ℝ), 0) by rw [Prod.mk.injEq]; constructor <;> ring]
    exact normalize_vector_neg_x hh
  · show get_edge_normal (cx + w / 2, cy + h / 2) (cx - w / 2, cy + h / 2) = (0, -1)
    rw [get_edge_normal, show (-((cy + h / 2) - (cy + h / 2)), (cx - w / 2) - (cx + w / 2))
      = ((0 : ℝ), -w) by rw [Prod.mk.injEq]; constructor <;> ring]
    exact normalize_vector_neg_y hw
  · show get_edge_normal (cx - w / 2, cy + h / 2) (cx - w / 2, cy - h / 2) = (1, 0)
    rw [get_edge_normal, show (-((cy - h / 2) - (cy + h / 2)), (cx - w / 2) - (cx - w / 2))
      = ((h : ℝ), 0) by rw [Prod.mk.injEq]; constructor <;> ring]
    exact normalize_vector_pos_x hh

-- ===========================================================================
-- C4: touch boundary behaviour of sat_rectangles_collide at tolerance 0
-- ===========================================================================

/-- C4 counterexample: for the unit squares centred at (0,0) and (1, 0.99),
the first tested axis yields gap = 0.01 (> epsilon) and every tested axis
yields gap >= 0, yet sat_rectangles_collide at tolerance 0 returns false
(the x-axis, with gap exactly 0, is a separating axis), contradicting the
claim that such a configuration is reported as overlapping. -/
theorem sat_touch_overlap_counterexample :
    (∀ i : Fin 4,
      0 ≤ projection_gap
        (project_polygon (sat_axis (corner_pairs (unit_sq 0 0)) i) (corner_pairs (unit_sq 0 0)))
        (project_polygon (sat_axis (corner_pairs (unit_sq 0 0)) i)
          (corner_pairs (unit_sq 1 (99 / 100)))) ∧
      0 ≤ projection_gap
        (project_polygon (sat_axis (corner_pairs (unit_sq 1 (99 / 100))) i)
          (corner_pairs (unit_sq 0 0)))
        (project_polygon (sat_axis (corner_pairs (unit_sq 1 (99 / 100))) i)
          (corner_pairs (unit_sq 1 (99 / 100))))) ∧
    projection_gap
      (project_polygon (sat_axis (corner_pairs (unit_sq 0 0)) 0) (corner_pairs (unit_sq 0 0)))
      (project_polygon (sat_axis (corner_pairs (unit_sq 0 0)) 0)
        (corner_pairs (unit_sq 1 (99 / 100)))) = 1 / 100 ∧
    ¬ sat_rectangles_collide (corner_pairs (unit_sq 0 0))
        (corner_pairs (unit_sq 1 (99 / 100))) 0 := by
  have hA : sat_axis (corner_pairs (unit_sq 0 0)) = ![(0, 1), (-1, 0), (0, -1), (1, 0)] :=
    sat_axis_rot0 0 0 1 1 one_pos one_pos
  have hB : sat_axis (corner_pairs (unit_sq 1 (99 / 100))) =
      ![(0, 1), (-1, 0), (0, -1), (1, 0)] :=
    sat_axis_rot0 1 (99 / 100) 1 1 one_pos one_pos
  have hcA : corner_pairs (unit_sq 0 0) =
      ![(0 - 1 / 2, 0 - 1 / 2), (0 + 1 / 2, 0 - 1 / 2),
        (0 + 1 / 2, 0 + 1 / 2), (0 - 1 / 2, 0 + 1 / 2)] :=
    corner_pairs_rot0 0 0 1 1
  have hcB : corner_pairs (unit_sq 1 (99 / 100)) =
      ![(1 - 1 / 2, 99 / 100 - 1 / 2), (1 + 1 / 2, 99 / 100 - 1 / 2),
        (1 + 1 / 2, 99 / 100 + 1 / 2), (1 - 1 / 2, 99 / 100 + 1 / 2)] :=
    corner_pairs_rot0 1 (99 / 100) 1 1
  refine ⟨?_, ?_, ?_⟩
  · intro i
    rw [hA, hB, hcA, hcB]
    fin_cases i <;> constructor <;>
      norm_num [project_polygon, dot_product, projection_gap,
        Matrix.cons_val_zero, Matrix.cons_val_one, Matrix.head_cons,
        Matrix.cons_val_two, Matrix.tail_cons, Matrix.cons_val_three,
        min_def, max_def]
  · rw [hA, hcA, hcB]
    norm_num [project_polygon, dot_product, projection_gap,
      Matrix.cons_val_zero, Matrix.cons_val_one, Matrix.head_cons,
      Matrix.cons_val_two, Matrix.tail_cons, Matrix.cons_val_three,
      min_def, max_def]
  · intro hsat
    have h := (hsat 1).1
    rw [hA, hcA, hcB] at h
    rw [projections_overlap, if_pos (by rw [epsilon_eq]; norm_num)] at h
    rw [epsilon_eq] at h
    norm_num [project_polygon, dot_product, projection_gap,
      Matrix.cons_val_zero, Matrix.cons_val_one, Matrix.head_cons,
      Matrix.cons_val_two, Matrix.tail_cons, Matrix.cons_val_three,
      min_def, max_def] at h

/-- C4 (amended): with tolerance = 0, sat_rectangles_collide returns false
whenever every tested axis yields gap = 0 (touching rectangles are not
flagged), and returns true when every tested axis yields gap > epsilon; a
gap of 0.01 on some axis forces a collision report only if all other axes
also show gap > epsilon, not merely gap >= 0. -/
theorem sat_gap_characterization_tol_zero :
    (∀ c1 c2 : Fin 4 → ℝ × ℝ,
      (∀ i : Fin 4,
        projection_gap (project_polygon (sat_axis c1 i) c1)
          (project_polygon (sat_axis c1 i) c2) = 0 ∧
        projection_gap (project_polygon (sat_axis c2 i) c1)
          (project_polygon (sat_axis c2 i) c2) = 0) →
      ¬ sat_rectangles_collide c1 c2 0) ∧
    (∀ c1 c2 : Fin 4 → ℝ × ℝ,
      (∀ i : Fin 4,
        projection_gap (project_polygon (sat_axis c1 i) c1)
          (project_polygon (sat_axis c1 i) c2) > epsilon ∧
        projection_gap (project_polygon (sat_axis c2 i) c1)
          (project_polygon (sat_axis c2 i) c2) > epsilon) →
      sat_rectangles_collide c1 c2 0) := by
  have hlt : (0 : ℝ) < epsilon := by rw [epsilon_eq]; norm_num
  constructor
  · intro c1 c2 h hsat
    have h0 := (hsat 0).1
    rw [projections_overlap, if_pos hlt, (h 0).1] at h0
    exact absurd h0 (not_lt.mpr hlt.le)
  · intro c1 c2 h i
    exact ⟨by rw [projections_overlap, if_pos hlt]; exact (h i).1,
           by rw [projections_overlap, if_pos hlt]; exact (h i).2⟩

/-- Witness for C4 (amended): the diagonally touching unit squares at (0,0)
and (1,1) (all gaps 0) are not flagged, and the properly overlapping unit
squares at (0,0) and (0.5, 0.5) (all gaps 1/2 > epsilon) are flagged. -/
theorem sat_gap_characterization_tol_zero_witness :
    ¬ sat_rectangles_collide (corner_pairs (unit_sq 0 0)) (corner_pairs (unit_sq 1 1)) 0 ∧
    sat_rectangles_collide (corner_pairs (unit_sq 0 0))
      (corner_pairs (unit_sq (1 / 2) (1 / 2))) 0 := by
  have hA : sat_axis (corner_pairs (unit_sq 0 0)) = ![(0, 1), (-1, 0), (0, -1), (1, 0)] :=
    sat_axis_rot0 0 0 1 1 one_pos one_pos
  have hcA : corner_pairs (unit_sq 0 0) =
      ![(0 - 1 / 2, 0 - 1 / 2), (0 + 1 / 2, 0 - 1 / 2),
        (0 + 1 / 2, 0 + 1 / 2), (0 - 1 / 2, 0 + 1 / 2)] :=
    corner_pairs_rot0 0 0 1 1
  constructor
  · refine sat_gap_characterization_tol_zero.1 _ _ ?_
    have hB : sat_axis (corner_pairs (unit_sq 1 1)) = ![(0, 1), (-1, 0), (0, -1), (1, 0)] :=
      sat_axis_rot0 1 1 1 1 one_pos one_pos
    have hcB : corner_pairs (unit_sq 1 1) =
        ![(1 - 1 / 2, 1 - 1 / 2), (1 + 1 / 2, 1 - 1 / 2),
          (1 + 1 / 2, 1 + 1 / 2), (1 - 1 / 2, 1 + 1 / 2)] :=
      corner_pairs_rot0 1 1 1 1
    intro i
    rw [hA, hB, hcA, hcB]
    fin_cases i <;> constructor <;>
      norm_num [project_polygon, dot_product, projection_gap,
        Matrix.cons_val_zero, Matrix.cons_val_one, Matrix.head_cons,
        Matrix.cons_val_two, Matrix.tail_cons, Matrix.cons_val_three,
        min_def, max_def]
  · refine sat_gap_characterization_tol_zero.2 _ _ ?_
    have hB : sat_axis (corner_pairs (unit_sq (1 / 2) (1 / 2))) =
        ![(0, 1), (-1, 0), (0, -1), (1, 0)] :=
      sat_axis_rot0 (1 / 2) (1 / 2) 1 1 one_pos one_pos
    have hcB : corner_pairs (unit_sq (1 / 2) (1 / 2)) =
        ![(1 / 2 - 1 / 2, 1 / 2 - 1 / 2), (1 / 2 + 1 / 2, 1 / 2 - 1 / 2),
          (1 / 2 + 1 / 2, 1 / 2 + 1 / 2), (1 / 2 - 1 / 2, 1 / 2 + 1 / 2)] :=
      corner_pairs_rot0 (1 / 2) (1 / 2) 1 1
    intro i
    rw [hA, hB, hcA, hcB, epsilon_eq]
    fin_cases i <;> constructor <;>
      norm_num [project_polygon, dot_product, projection_gap,
        Matrix.cons_val_zero, Matrix.cons_val_one, Matrix.head_cons,
        Matrix.cons_val_two, Matrix.tail_cons, Matrix.cons_val_three,
        min_def, max_def]

-- ===========================================================================
-- C1: two grid neighbours spaced exactly (width + tolerance) apart are
-- flagged as colliding by the SAT test at that tolerance
-- ===========================================================================

/-- Supporting theorem for C1: two 10x10 rectangles placed exactly
width + tolerance = 11 apart (the base-grid spacing of the packer at
tolerance 1) are flagged as colliding by rectangles_overlap, because the
x-axis gap is exactly -tolerance and the code tests
gap > -tolerance - epsilon instead of the documented gap > -tolerance.
Hence the packer's own final validation rejects its own grids. -/
theorem grid_spacing_flagged_as_collision :
    rectangles_overlap ⟨⟨0, 0⟩, 10, 10, 0⟩ ⟨⟨11, 0⟩, 10, 10, 0⟩ 1 ∧
    ¬ validate_no_overlaps ⟨100, 10, 10, 1, 0⟩
        [⟨⟨0, 0⟩, 10, 10, 0⟩, ⟨⟨11, 0⟩, 10, 10, 0⟩] := by
  have hmain : rectangles_overlap ⟨⟨0, 0⟩, 10, 10, 0⟩ ⟨⟨11, 0⟩, 10, 10, 0⟩ 1 := by
    have h1 : sat_axis (corner_pairs ⟨⟨0, 0⟩, 10, 10, 0⟩) =
        ![(0, 1), (-1, 0), (0, -1), (1, 0)] :=
      sat_axis_rot0 0 0 10 10 (by norm_num) (by norm_num)
    have h2 : sat_axis (corner_pairs ⟨⟨11, 0⟩, 10, 10, 0⟩) =
        ![(0, 1), (-1, 0), (0, -1), (1, 0)] :=
      sat_axis_rot0 11 0 10 10 (by norm_num) (by norm_num)
    have hc1 : corner_pairs ⟨⟨0, 0⟩, 10, 10, 0⟩ =
        ![(0 - 10 / 2, 0 - 10 / 2), (0 + 10 / 2, 0 - 10 / 2),
          (0 + 10 / 2, 0 + 10 / 2), (0 - 10 / 2, 0 + 10 / 2)] :=
      corner_pairs_rot0 0 0 10 10
    have hc2 : corner_pairs ⟨⟨11, 0⟩, 10, 10, 0⟩ =
        ![(11 - 10 / 2, 0 - 10 / 2), (11 + 10 / 2, 0 - 10 / 2),
          (11 + 10 / 2, 0 + 10 / 2), (11 - 10 / 2, 0 + 10 / 2)] :=
      corner_pairs_rot0 11 0 10 10
    rw [rectangles_overlap, sat_rectangles_collide]
    intro i
    rw [h1, h2, hc1, hc2]
    have hno : ¬ (1 : ℝ) < epsilon := by rw [epsilon_eq]; norm_num
    fin_cases i <;> constructor <;>
      · rw [projections_overlap, if_neg hno, epsilon_eq]
        norm_num [project_polygon, dot_product, projection_gap,
          Matrix.cons_val_zero, Matrix.cons_val_one, Matrix.head_cons,
          Matrix.cons_val_two, Matrix.tail_cons, Matrix.cons_val_three,
          min_def, max_def]
  refine ⟨hmain, fun hval => ?_⟩
  have h := List.pairwise_cons.mp hval
  exact h.1 _ (List.mem_singleton_self _) hmain

-- ===========================================================================
-- Invariant preservation through the packing pipeline: every rectangle in
-- any produced list was appended under a fits-in-circle guard and with the
-- stage's fixed dimensions and rotation.
-- ===========================================================================

lemma foldl_inv {σ β : Type} (Inv : σ → Prop) (f : σ → β → σ)
    (hf : ∀ s b, Inv s → Inv (f s b)) :
    ∀ (l : List β) (s : σ), Inv s → Inv (l.foldl f s) := by
  intro l
  induction l with
  | nil => exact fun s h => h
  | cons b l ih => exact fun s h => ih _ (hf s b h)

lemma scan_y_forall {p : RectanglePacker} {Q : Rectangle → Prop} {alt osy ssy cx : ℝ}
    {acc : List Rectangle} (hQ : GuardOK p alt Q) (hacc : ∀ q ∈ acc, Q q) :
    ∀ q ∈ scan_y p alt osy ssy cx acc, Q q := by
  unfold scan_y
  refine foldl_inv (fun l => ∀ q ∈ l, Q q) _ ?_ _ acc hacc
  intro s k hs
  dsimp only
  split
  next hcond =>
    intro q hq
    rcases List.mem_append.mp hq with h | h
    · exact hs q h
    · rw [List.mem_singleton] at h
      subst h
      exact hQ _ _ hcond.1
  next => exact hs

lemma scan_x_forall {p : RectanglePacker} {Q : Rectangle → Prop} {alt osx ssx cy : ℝ}
    {acc : List Rectangle} (hQ : GuardOK p alt Q) (hacc : ∀ q ∈ acc, Q q) :
    ∀ q ∈ scan_x p alt osx ssx cy acc, Q q := by
  unfold scan_x
  refine foldl_inv (fun l => ∀ q ∈ l, Q q) _ ?_ _ acc hacc
  intro s k hs
  dsimp only
  split
  next hcond =>
    intro q hq
    rcases List.mem_append.mp hq with h | h
    · exact hs q h
    · rw [List.mem_singleton] at h
      subst h
      exact hQ _ _ hcond.1
  next => exact hs

lemma fill_right_forall {p : RectanglePacker} {Q : Rectangle → Prop} {alt ow osx osy ssy : ℝ}
    (hQ : GuardOK p alt Q) :
    ∀ (fuel : ℕ) (curr : ℝ) (acc : List Rectangle), (∀ q ∈ acc, Q q) →
      ∀ q ∈ fill_right p alt ow osx osy ssy fuel curr acc, Q q := by
  intro fuel
  induction fuel with
  | zero => intro curr acc hacc; simpa only [fill_right] using hacc
  | succ n ih =>
    intro curr acc hacc
    rw [fill_right]
    split
    · exact ih _ _ (scan_y_forall hQ hacc)
    · exact hacc

lemma fill_left_forall {p : RectanglePacker} {Q : Rectangle → Prop} {alt ow osx osy ssy : ℝ}
    (hQ : GuardOK p alt Q) :
    ∀ (fuel : ℕ) (curr : ℝ) (acc : List Rectangle), (∀ q ∈ acc, Q q) →
      ∀ q ∈ fill_left p alt ow osx osy ssy fuel curr acc, Q q := by
  intro fuel
  induction fuel with
  | zero => intro curr acc hacc; simpa only [fill_left] using hacc
  | succ n ih =>
    intro curr acc hacc
    rw [fill_left]
    split
    · exact ih _ _ (scan_y_forall hQ hacc)
    · exact hacc

lemma fill_top_forall {p : RectanglePacker} {Q : Rectangle → Prop} {alt oh osx osy ssx : ℝ}
    (hQ : GuardOK p alt Q) :
    ∀ (fuel : ℕ) (curr : ℝ) (acc : List Rectangle), (∀ q ∈ acc, Q q) →
      ∀ q ∈ fill_top p alt oh osx osy ssx fuel curr acc, Q q := by
  intro fuel
  induction fuel with
  | zero => intro curr acc hacc; simpa only [fill_top] using hacc
  | succ n ih =>
    intro curr acc hacc
    rw [fill_top]
    split
    · exact ih _ _ (scan_x_forall hQ hacc)
    · exact hacc

lemma fill_bottom_forall {p : RectanglePacker} {Q : Rectangle → Prop} {alt oh osx osy ssx : ℝ}
    (hQ : GuardOK p alt Q) :
    ∀ (fuel : ℕ) (curr : ℝ) (acc : List Rectangle), (∀ q ∈ acc, Q q) →
      ∀ q ∈ fill_bottom p alt oh osx osy ssx fuel curr acc, Q q := by
  intro fuel
  induction fuel with
  | zero => intro curr acc hacc; simpa only [fill_bottom] using hacc
  | succ n ih =>
    intro curr acc hacc
    rw [fill_bottom]
    split
    · exact ih _ _ (scan_x_forall hQ hacc)
    · exact hacc

lemma center_top_forall {p : RectanglePacker} {Q : Rectangle → Prop} {rot h gsy gcx : ℝ}
    (hQ : GuardOK p rot Q) :
    ∀ (fuel : ℕ) (curr : ℝ) (acc : List Rectangle), (∀ q ∈ acc, Q q) →
      ∀ q ∈ center_top p rot h gsy gcx fuel curr acc, Q q := by
  intro fuel
  induction fuel with
  | zero => intro curr acc hacc; simpa only [center_top] using hacc
  | succ n ih =>
    intro curr acc hacc
    rw [center_top]
    split
    · dsimp only
      split
      next hcond =>
        refine ih _ _ ?_
        intro q hq
        rcases List.mem_append.mp hq with hm | hm
        · exact hacc q hm
        · rw [List.mem_singleton] at hm
          subst hm
          exact hQ _ _ hcond.1
      next => exact hacc
    · exact hacc

lemma center_bottom_forall {p : RectanglePacker} {Q : Rectangle → Prop} {rot h gsy gcx : ℝ}
    (hQ : GuardOK p rot Q) :
    ∀ (fuel : ℕ) (curr : ℝ) (acc : List Rectangle), (∀ q ∈ acc, Q q) →
      ∀ q ∈ center_bottom p rot h gsy gcx fuel curr acc, Q q := by
  intro fuel
  induction fuel with
  | zero => intro curr acc hacc; simpa only [center_bottom] using hacc
  | succ n ih =>
    intro curr acc hacc
    rw [center_bottom]
    split
    · dsimp only
      split
      next hcond =>
        refine ih _ _ ?_
        intro q hq
        rcases List.mem_append.mp hq with hm | hm
        · exact hacc q hm
        · rw [List.mem_singleton] at hm
          subst hm
          exact hQ _ _ hcond.1
      next => exact hacc
    · exact hacc

lemma try_both_rotations_forall {p : RectanglePacker} {Q : Rectangle → Prop} {x y : ℝ}
    {acc : List Rectangle} (hQ0 : GuardOK p 0 Q) (hQ90 : GuardOK p 90 Q)
    (hacc : ∀ q ∈ acc, Q q) :
    ∀ q ∈ try_both_rotations p x y acc, Q q := by
  unfold try_both_rotations
  dsimp only
  split
  next hcond =>
    intro q hq
    rcases List.mem_append.mp hq with hm | hm
    · exact hacc q hm
    · rw [List.mem_singleton] at hm
      subst hm
      exact hQ0 _ _ hcond.1
  next =>
    split
    next hcond =>
      intro q hq
      rcases List.mem_append.mp hq with hm | hm
      · exact hacc q hm
      · rw [List.mem_singleton] at hm
        subst hm
        exact hQ90 _ _ hcond.1
    next => exact hacc

lemma gap_fill_x_forall {p : RectanglePacker} {Q : Rectangle → Prop} {step y : ℝ}
    (hQ0 : GuardOK p 0 Q) (hQ90 : GuardOK p 90 Q) :
    ∀ (fuel : ℕ) (x : ℝ) (acc : List Rectangle), (∀ q ∈ acc, Q q) →
      ∀ q ∈ gap_fill_x p step y fuel x acc, Q q := by
  intro fuel
  induction fuel with
  | zero => intro x acc hacc; simpa only [gap_fill_x] using hacc
  | succ n ih =>
    intro x acc hacc
    rw [gap_fill_x]
    split
    · exact ih _ _ (try_both_rotations_forall hQ0 hQ90 hacc)
    · exact hacc

lemma gap_fill_y_forall {p : RectanglePacker} {Q : Rectangle → Prop} {step : ℝ}
    {inner_fuel : ℕ} (hQ0 : GuardOK p 0 Q) (hQ90 : GuardOK p 90 Q) :
    ∀ (fuel : ℕ) (y : ℝ) (acc : List Rectangle), (∀ q ∈ acc, Q q) →
      ∀ q ∈ gap_fill_y p step inner_fuel fuel y acc, Q q := by
  intro fuel
  induction fuel with
  | zero => intro y acc hacc; simpa only [gap_fill_y] using hacc
  | succ n ih =>
    intro y acc hacc
    rw [gap_fill_y]
    split
    · exact ih _ _ (gap_fill_x_forall hQ0 hQ90 _ _ _ hacc)
    · exact hacc

lemma systematic_gap_fill_forall {p : RectanglePacker} {Q : Rectangle → Prop} {fuel : ℕ}
    {placed : List Rectangle} (hQ0 : GuardOK p 0 Q) (hQ90 : GuardOK p 90 Q)
    (hacc : ∀ q ∈ placed, Q q) :
    ∀ q ∈ systematic_gap_fill p fuel placed, Q q := by
  unfold systematic_gap_fill
  exact gap_fill_y_forall hQ0 hQ90 _ _ _ hacc

lemma grid_row_forall {p : RectanglePacker} {Q : Rectangle → Prop}
    {rot w h gsx sx ox y : ℝ} {cols : ℕ} {st : GridState} (hQ : GuardOK p rot Q)
    (hst : ∀ q ∈ st.rects, Q q) :
    ∀ q ∈ (grid_row p rot w h gsx sx ox y cols st).rects, Q q := by
  unfold grid_row
  refine foldl_inv (fun s : GridState => ∀ q ∈ s.rects, Q q) _ ?_ _ st hst
  intro s c hs
  dsimp only
  split
  next hcond =>
    intro q hq
    rcases List.mem_append.mp hq with hm | hm
    · exact hs q hm
    · rw [List.mem_singleton] at hm
      subst hm
      exact hQ _ _ hcond
  next => exact hs

lemma generate_grid_forall {p : RectanglePacker} {Q : Rectangle → Prop}
    {rot w h gsx gsy sx sy ox oy : ℝ} {rows cols : ℕ} (hQ : GuardOK p rot Q) :
    ∀ q ∈ (generate_grid p rot w h gsx gsy sx sy ox oy rows cols).rects, Q q := by
  unfold generate_grid
  refine foldl_inv (fun s : GridState => ∀ q ∈ s.rects, Q q) _ ?_ _ _ ?_
  · intro s r hs
    exact grid_row_forall hQ hs
  · intro q hq
    simp at hq

lemma offset_step_forall {p : RectanglePacker} {Q : Rectangle → Prop}
    {rot alt w h ow oh gsx gsy osx osy : ℝ} {fuel i j : ℕ} {best : List Rectangle × ℕ}
    (hQrot : GuardOK p rot Q) (hQalt : GuardOK p alt Q) (hbest : ∀ q ∈ best.1, Q q) :
    ∀ q ∈ (offset_step p rot alt w h ow oh gsx gsy osx osy fuel i j best).1, Q q := by
  unfold offset_step
  dsimp only
  split
  · exact hbest
  next min_x max_x min_y max_y _ =>
    have hst := @generate_grid_forall p Q rot w h gsx gsy (-p.radius - w) (-p.radius - h)
      (gsx / 10 * i) (gsy / 10 * j)
      (int_trunc ((p.circle_diameter + 2 * h) / gsy) + 2).toNat
      (int_trunc ((p.circle_diameter + 2 * w) / gsx) + 2).toNat hQrot
    have h1 := @fill_right_forall p Q alt ow osx osy (min_y + oh / 2) hQalt fuel
      (max_x + p.tolerance + ow / 2) _ hst
    have h2 := @fill_left_forall p Q alt ow osx osy (min_y + oh / 2) hQalt fuel
      (min_x - p.tolerance - ow / 2) _ h1
    have h3 := @fill_top_forall p Q alt oh osx osy (min_x + ow / 2) hQalt fuel
      (max_y + p.tolerance + oh / 2) _ h2
    have h4 := @fill_bottom_forall p Q alt oh osx osy (min_x + ow / 2) hQalt fuel
      (min_y - p.tolerance - oh / 2) _ h3
    have h5 := @center_top_forall p Q rot h gsy ((min_x + max_x) / 2) hQrot fuel
      (max_y + p.tolerance + h / 2) _ h4
    have h6 := @center_bottom_forall p Q rot h gsy ((min_x + max_x) / 2) hQrot fuel
      (min_y - p.tolerance - h / 2) _ h5
    split <;> (try split) <;>
      first
        | exact h6
        | exact h4
        | exact hbest

lemma offset_search_forall {p : RectanglePacker} {Q : Rectangle → Prop}
    {rot alt w h ow oh gsx gsy osx osy : ℝ} {fuel : ℕ}
    (hQrot : GuardOK p rot Q) (hQalt : GuardOK p alt Q) :
    ∀ q ∈ ((List.range 10).foldl (fun best i => (List.range 10).foldl (fun best j =>
      offset_step p rot alt w h ow oh gsx gsy osx osy fuel i j best) best)
        ([], 0)).1, Q q := by
  refine foldl_inv (fun s : List Rectangle × ℕ => ∀ q ∈ s.1, Q q) _ ?_ _ _ ?_
  · intro s i hs
    refine foldl_inv (fun s : List Rectangle × ℕ => ∀ q ∈ s.1, Q q) _ ?_ _ s hs
    intro s j hs
    exact offset_step_forall hQrot hQalt hs
  · intro q hq
    simp at hq

lemma strict_grid_packing_forall {p : RectanglePacker} {rotation : ℝ} {fuel : ℕ}
    {Q : Rectangle → Prop} (hQrot : GuardOK p rotation Q)
    (hQalt : GuardOK p (if rotation = 90 then (0 : ℝ) else 90) Q)
    (hQ0 : GuardOK p 0 Q) (hQ90 : GuardOK p 90 Q) :
    ∀ q ∈ (strict_grid_packing p rotation fuel).rectangles, Q q := by
  unfold strict_grid_packing
  by_cases hrot : rotation = (90 : ℝ)
  · rw [if_pos hrot] at hQalt
    simp only [hrot, if_pos]
    split
    · exact offset_search_forall (hrot ▸ hQrot) hQalt
    · exact systematic_gap_fill_forall hQalt hQ90
        (offset_search_forall (hrot ▸ hQrot) hQalt)
  · rw [if_neg hrot] at hQalt
    simp only [if_neg hrot]
    split
    · exact offset_search_forall hQrot hQalt
    · exact systematic_gap_fill_forall hQ0 hQ90 (offset_search_forall hQrot hQalt)

-- ===========================================================================
-- Selection of the best candidate in find_optimal_packing
-- ===========================================================================

lemma max_by_count_mem (r : PackingResult) (rs : List PackingResult) :
    max_by_count r rs ∈ r :: rs := by
  induction rs generalizing r with
  | nil => exact List.mem_singleton_self r
  | cons s rs ih =>
    unfold max_by_count
    rw [List.foldl_cons]
    have h := ih (if s.count > r.count then s else r)
    unfold max_by_count at h
    rcases List.mem_cons.mp h with hm | hm
    · rw [hm]
      by_cases hc : s.count > r.count
      · rw [if_pos hc]
        exact List.mem_cons_of_mem _ (List.mem_cons_self _ _)
      · rw [if_neg hc]
        exact List.mem_cons_self _ _
    · exact List.mem_cons_of_mem _ (List.mem_cons_of_mem _ hm)

lemma find_optimal_best_mem (p : RectanglePacker) (fuel : ℕ) :
    ∃ b, b ∈ [strict_grid_packing p 0 fuel, strict_grid_packing p 90 fuel] ∧
      find_optimal_packing p fuel = calculate_efficiency p b := by
  classical
  unfold find_optimal_packing
  cases hv : ([strict_grid_packing p 0 fuel, strict_grid_packing p 90 fuel].filter
      fun r => if validate_no_overlaps p r.rectangles then true else false) with
  | nil =>
    refine ⟨max_by_count (strict_grid_packing p 0 fuel) [strict_grid_packing p 90 fuel],
      max_by_count_mem _ _, ?_⟩
    simp only [hv]
  | cons r rs =>
    refine ⟨max_by_count r rs, ?_, ?_⟩
    · have hsub : max_by_count r rs ∈ r :: rs := max_by_count_mem r rs
      exact List.mem_of_mem_filter (hv ▸ hsub)
    · simp only [hv]

lemma calculate_efficiency_rectangles (p : RectanglePacker) (res : PackingResult) :
    (calculate_efficiency p res).rectangles = res.rectangles := by
  unfold calculate_efficiency
  split
  · rfl
  · dsimp only
    split <;> rfl

-- ===========================================================================
-- C3: containment of all corners in the effective circle
-- ===========================================================================

/-- C3: every rectangle in the sequence of any PackingResult returned by
find_optimal_packing has all 4 corners produced by get_corners at distance
sqrt(x^2 + y^2) <= effective_radius + epsilon from the origin, where
effective_radius = circle_diameter/2 - safe_zone (the pipeline accepts a
rectangle only after _rectangle_fits_in_circle, which bounds each corner's
distance by effective_radius itself). -/
theorem packing_corners_within_effective_radius (p : RectanglePacker) (fuel : ℕ) :
    (find_optimal_packing p fuel).rectangles.Forall fun r =>
      ∀ i : Fin 4, Real.sqrt ((get_corners r i).x ^ 2 + (get_corners r i).y ^ 2) ≤
        p.effective_radius + 1 / 1000000 := by
  rw [List.forall_iff_forall_mem]
  obtain ⟨b, hb, heq⟩ := find_optimal_best_mem p fuel
  rw [heq, calculate_efficiency_rectangles]
  have hQ : ∀ rot : ℝ, GuardOK p rot (fun r =>
      ∀ i : Fin 4, Real.sqrt ((get_corners r i).x ^ 2 + (get_corners r i).y ^ 2) ≤
        p.effective_radius + 1 / 1000000) := by
    intro rot x y hfit i
    have h := not_lt.mp (hfit i)
    linarith
  rcases List.mem_cons.mp hb with rfl | hb2
  · exact strict_grid_packing_forall (hQ 0) (hQ _) (hQ 0) (hQ 90)
  · rcases List.mem_cons.mp hb2 with rfl | h
    · exact strict_grid_packing_forall (hQ 90) (hQ _) (hQ 0) (hQ 90)
    · simp at h

-- ===========================================================================
-- C5: only the rotations 0 and 90 are produced
-- ===========================================================================

/-- C5: every rectangle in the sequence of any PackingResult returned by
find_optimal_packing has rotation exactly 0 or exactly 90 degrees (the
strategies are run for base rotations 0 and 90 only, the edge fills use the
complementary orthogonal rotation, and the systematic gap fill tries only
0 and 90). -/
theorem packing_rotations_orthogonal (p : RectanglePacker) (fuel : ℕ) :
    (find_optimal_packing p fuel).rectangles.Forall fun r =>
      r.rotation = 0 ∨ r.rotation = 90 := by
  rw [List.forall_iff_forall_mem]
  obtain ⟨b, hb, heq⟩ := find_optimal_best_mem p fuel
  rw [heq, calculate_efficiency_rectangles]
  have h0 : GuardOK p 0 fun r => r.rotation = 0 ∨ r.rotation = 90 := fun x y _ => Or.inl rfl
  have h90 : GuardOK p 90 fun r => r.rotation = 0 ∨ r.rotation = 90 := fun x y _ => Or.inr rfl
  rcases List.mem_cons.mp hb with rfl | hb2
  · refine strict_grid_packing_forall h0 ?_ h0 h90
    rw [if_neg (by norm_num : ¬ (0 : ℝ) = 90)]
    exact h90
  · rcases List.mem_cons.mp hb2 with rfl | h
    · refine strict_grid_packing_forall h90 ?_ h0 h90
      rw [if_pos rfl]
      exact h0
    · simp at h

-- ===========================================================================
-- C9: determinism of find_optimal_packing
-- ===========================================================================

/-- C9: find_optimal_packing is deterministic: two runs on an identical
input configuration produce identical PackingResults (same rectangle
sequence, count, strategy and metrics); in the embedding the search is a
pure function of the configuration, with no hidden state. -/
theorem find_optimal_packing_deterministic (p q : RectanglePacker) (fuel : ℕ) (h : p = q) :
    find_optimal_packing p fuel = find_optimal_packing q fuel := by rw [h]

/-- Witness for C9 at the concrete configuration of the repository's test
harness (diameter 100, 15 x 10 rectangles, tolerance 0, safe zone 0). -/
theorem find_optimal_packing_deterministic_witness :
    find_optimal_packing ⟨100, 15, 10, 0, 0⟩ 3 = find_optimal_packing ⟨100, 15, 10, 0, 0⟩ 3 :=
  find_optimal_packing_deterministic ⟨100, 15, 10, 0, 0⟩ ⟨100, 15, 10, 0, 0⟩ 3 rfl

-- ===========================================================================
-- C6: degenerate configurations (effective_radius <= 0)
-- ===========================================================================

lemma local_corners_zero (hw hh : ℝ) : local_corners hw hh 0 = (-hw, -hh) := rfl
lemma local_corners_two (hw hh : ℝ) : local_corners hw hh 2 = (hw, hh) := rfl

/-- With a non-positive effective radius no rectangle with the packer's
(positive) width passes _rectangle_fits_in_circle: all four corners would
have to sit exactly at the origin, which is impossible for a rectangle of
positive width. -/
lemma not_fits_of_degenerate {p : RectanglePacker} (her : p.effective_radius ≤ 0)
    (hwidth : 0 < p.rect_width) (pos : Position) (rot : ℝ) :
    ¬ rectangle_fits_in_circle p ⟨pos, p.rect_width, p.rect_height, rot⟩ := by
  intro hfit
  have key : ∀ i : Fin 4,
      (get_corners ⟨pos, p.rect_width, p.rect_height, rot⟩ i).x = 0 ∧
      (get_corners ⟨pos, p.rect_width, p.rect_height, rot⟩ i).y = 0 := by
    intro i
    have h1 := not_lt.mp (hfit i)
    have h2 : Real.sqrt ((get_corners ⟨pos, p.rect_width, p.rect_height, rot⟩ i).x ^ 2 +
        (get_corners ⟨pos, p.rect_width, p.rect_height, rot⟩ i).y ^ 2) = 0 :=
      le_antisymm (h1.trans her) (Real.sqrt_nonneg _)
    have h3 := Real.sqrt_eq_zero'.mp h2
    constructor <;>
      nlinarith [sq_nonneg (get_corners ⟨pos, p.rect_width, p.rect_height, rot⟩ i).x,
        sq_nonneg (get_corners ⟨pos, p.rect_width, p.rect_height, rot⟩ i).y]
  obtain ⟨hx0, hy0⟩ := key 0
  obtain ⟨hx2, hy2⟩ := key 2
  simp only [get_corners, local_corners_zero, local_corners_two] at hx0 hy0 hx2 hy2
  set C := Real.cos (rot * Real.pi / 180) with hC
  set S := Real.sin (rot * Real.pi / 180) with hS
  have hpyth : S ^ 2 + C ^ 2 = 1 := Real.sin_sq_add_cos_sq _
  have e1 : p.rect_width / 2 * C - p.rect_height / 2 * S = 0 := by linarith
  have e2 : p.rect_width / 2 * S + p.rect_height / 2 * C = 0 := by linarith
  have hw0 : p.rect_width / 2 = 0 := by
    linear_combination S * e2 + C * e1 - p.rect_width / 2 * hpyth
  linarith

lemma foldl_id {σ β : Type} (f : σ → β → σ) (hf : ∀ s b, f s b = s) :
    ∀ (l : List β) (s : σ), l.foldl f s = s := by
  intro l
  induction l with
  | nil => exact fun s => rfl
  | cons b l ih => intro s; rw [List.foldl_cons, hf]; exact ih s

lemma generate_grid_degenerate {p : RectanglePacker} (her : p.effective_radius ≤ 0)
    (hwidth : 0 < p.rect_width) (rot w h gsx gsy sx sy ox oy : ℝ) (rows cols : ℕ) :
    generate_grid p rot w h gsx gsy sx sy ox oy rows cols = ⟨[], none⟩ := by
  unfold generate_grid
  refine foldl_id _ ?_ _ _
  intro st r
  unfold grid_row
  refine foldl_id _ ?_ _ _
  intro st c
  dsimp only
  rw [if_neg (not_fits_of_degenerate her hwidth _ _)]

lemma offset_step_degenerate {p : RectanglePacker} (her : p.effective_radius ≤ 0)
    (hwidth : 0 < p.rect_width)
    (rot alt w h ow oh gsx gsy osx osy : ℝ) (fuel i j : ℕ) (best : List Rectangle × ℕ) :
    offset_step p rot alt w h ow oh gsx gsy osx osy fuel i j best = best := by
  unfold offset_step
  simp only [generate_grid_degenerate her hwidth]

lemma strict_grid_packing_degenerate {p : RectanglePacker} (her : p.effective_radius ≤ 0)
    (hwidth : 0 < p.rect_width) (rot : ℝ) (fuel : ℕ) :
    (strict_grid_packing p rot fuel).rectangles = [] ∧
      (strict_grid_packing p rot fuel).count = 0 := by
  unfold strict_grid_packing
  have hfold : ∀ l : List ℕ,
      (l.foldl (fun best i => (List.range 10).foldl (fun best j =>
        offset_step p rot (if rot = 90 then (0 : ℝ) else 90)
          (if rot = 90 then p.rect_height else p.rect_width)
          (if rot = 90 then p.rect_width else p.rect_height)
          (if rot = 90 then p.rect_width else p.rect_height)
          (if rot = 90 then p.rect_height else p.rect_width)
          ((if rot = 90 then p.rect_height else p.rect_width) + p.tolerance)
          ((if rot = 90 then p.rect_width else p.rect_height) + p.tolerance)
          ((if rot = 90 then p.rect_width else p.rect_height) + p.tolerance)
          ((if rot = 90 then p.rect_height else p.rect_width) + p.tolerance)
          fuel i j best) best) (([], 0) : List Rectangle × ℕ)) = ([], 0) := by
    intro l
    refine foldl_id _ ?_ _ _
    intro s i
    refine foldl_id _ ?_ _ _
    intro s j
    exact offset_step_degenerate her hwidth _ _ _ _ _ _ _ _ _ _ fuel i j s
  simp only [hfold]
  exact ⟨rfl, rfl⟩

lemma strict_grid_packing_circle (p : RectanglePacker) (rot : ℝ) (fuel : ℕ) :
    (strict_grid_packing p rot fuel).circle = some ⟨p.radius, ⟨0, 0⟩⟩ := rfl

/-- C6: if effective_radius = circle_diameter/2 - safe_zone <= 0 (with
positive diameter and rectangle dimensions), the PackingResult returned by
find_optimal_packing has count = 0, an empty rectangle sequence,
efficiency = 0 and waste = 100; in particular this covers every
configuration with safe_zone >= circle_diameter/2. -/
theorem packing_degenerate_effective_radius (p : RectanglePacker) (fuel : ℕ)
    (hd : 0 < p.circle_diameter) (hw : 0 < p.rect_width) (hh : 0 < p.rect_height)
    (her : p.effective_radius ≤ 0) :
    (find_optimal_packing p fuel).count = 0 ∧
    (find_optimal_packing p fuel).rectangles = [] ∧
    (find_optimal_packing p fuel).efficiency = 0 ∧
    (find_optimal_packing p fuel).waste = 100 := by
  classical
  obtain ⟨h0rects, h0count⟩ := strict_grid_packing_degenerate her hw 0 fuel
  obtain ⟨h90rects, h90count⟩ := strict_grid_packing_degenerate her hw 90 fuel
  have hval0 : validate_no_overlaps p (strict_grid_packing p 0 fuel).rectangles := by
    rw [h0rects]; exact List.Pairwise.nil
  have hval90 : validate_no_overlaps p (strict_grid_packing p 90 fuel).rectangles := by
    rw [h90rects]; exact List.Pairwise.nil
  have hbest : find_optimal_packing p fuel =
      calculate_efficiency p (strict_grid_packing p 0 fuel) := by
    unfold find_optimal_packing
    have hfilter : ([strict_grid_packing p 0 fuel, strict_grid_packing p 90 fuel].filter
        fun r => if validate_no_overlaps p r.rectangles then true else false) =
        [strict_grid_packing p 0 fuel, strict_grid_packing p 90 fuel] := by
      simp only [List.filter, if_pos hval0, if_pos hval90]
    simp only [hfilter]
    unfold max_by_count
    rw [List.foldl_cons, List.foldl_nil, h0count, h90count]
    simp
  rw [hbest]
  unfold calculate_efficiency
  rw [strict_grid_packing_circle]
  have hrad : (0 : ℝ) < p.radius := by
    unfold RectanglePacker.radius; linarith
  have htot : (0 : ℝ) < Real.pi * p.radius ^ 2 := by positivity
  dsimp only
  rw [if_pos htot]
  refine ⟨h0count, h0rects, ?_, ?_⟩ <;>
    · dsimp only
      rw [h0rects]
      norm_num

/-- Witness for C6 at diameter 10, unit rectangle, safe_zone 5 (so that
effective_radius = 0). -/
theorem packing_degenerate_effective_radius_witness :
    (find_optimal_packing ⟨10, 1, 1, 0, 5⟩ 2).count = 0 ∧
    (find_optimal_packing ⟨10, 1, 1, 0, 5⟩ 2).rectangles = [] ∧
    (find_optimal_packing ⟨10, 1, 1, 0, 5⟩ 2).efficiency = 0 ∧
    (find_optimal_packing ⟨10, 1, 1, 0, 5⟩ 2).waste = 100 :=
  packing_degenerate_effective_radius ⟨10, 1, 1, 0, 5⟩ 2 (by norm_num) (by norm_num)
    (by norm_num)
    (by unfold RectanglePacker.effective_radius RectanglePacker.radius; norm_num)

-- ===========================================================================
-- C7: the metric identities of the returned result
-- ===========================================================================

lemma offset_step_sync {p : RectanglePacker}
    {rot alt w h ow oh gsx gsy osx osy : ℝ} {fuel i j : ℕ} {best : List Rectangle × ℕ}
    (hbest : best.2 = best.1.length) :
    (offset_step p rot alt w h ow oh gsx gsy osx osy fuel i j best).2 =
      (offset_step p rot alt w h ow oh gsx gsy osx osy fuel i j best).1.length := by
  unfold offset_step
  dsimp only
  split
  · exact hbest
  · split <;> (try split) <;> first | rfl | exact hbest

lemma offset_search_sync {p : RectanglePacker}
    {rot alt w h ow oh gsx gsy osx osy : ℝ} {fuel : ℕ} :
    ((List.range 10).foldl (fun best i => (List.range 10).foldl (fun best j =>
      offset_step p rot alt w h ow oh gsx gsy osx osy fuel i j best) best)
        (([], 0) : List Rectangle × ℕ)).2 =
    ((List.range 10).foldl (fun best i => (List.range 10).foldl (fun best j =>
      offset_step p rot alt w h ow oh gsx gsy osx osy fuel i j best) best)
        (([], 0) : List Rectangle × ℕ)).1.length := by
  refine foldl_inv (fun s : List Rectangle × ℕ => s.2 = s.1.length) _ ?_ _ _ rfl
  intro s i hs
  refine foldl_inv (fun s : List Rectangle × ℕ => s.2 = s.1.length) _ ?_ _ s hs
  intro s j hs
  exact offset_step_sync hs

lemma strict_grid_packing_count (p : RectanglePacker) (rot : ℝ) (fuel : ℕ) :
    (strict_grid_packing p rot fuel).count =
      (strict_grid_packing p rot fuel).rectangles.length := by
  unfold strict_grid_packing
  dsimp only
  split <;> (try split) <;> first | exact offset_search_sync | rfl

lemma sum_map_const {α : Type} (l : List α) (c : ℝ) :
    (l.map fun _ => c).sum = l.length * c := by
  induction l with
  | nil => simp
  | cons a l ih =>
    simp [ih]
    ring

/-- C7: every PackingResult returned by find_optimal_packing satisfies the
metric identities: count equals the length of the rectangle sequence,
total_area = pi * radius^2, used_area = count * rect_width * rect_height,
and (the total area being positive for a positive diameter)
efficiency = used_area / total_area * 100 — which equals
count * rect_width * rect_height / (pi * (circle_diameter/2)^2) * 100
within 1e-9 — and waste = 100 - efficiency. -/
theorem packing_metric_identities (p : RectanglePacker) (fuel : ℕ)
    (hd : 0 < p.circle_diameter) :
    (find_optimal_packing p fuel).count = (find_optimal_packing p fuel).rectangles.length ∧
    (find_optimal_packing p fuel).total_area = Real.pi * (p.circle_diameter / 2) ^ 2 ∧
    (find_optimal_packing p fuel).used_area =
      (find_optimal_packing p fuel).count * (p.rect_width * p.rect_height) ∧
    (find_optimal_packing p fuel).efficiency =
      (find_optimal_packing p fuel).used_area / (find_optimal_packing p fuel).total_area * 100 ∧
    (find_optimal_packing p fuel).waste = 100 - (find_optimal_packing p fuel).efficiency ∧
    |(find_optimal_packing p fuel).efficiency -
      (find_optimal_packing p fuel).count * p.rect_width * p.rect_height /
        (Real.pi * (p.circle_diameter / 2) ^ 2) * 100| ≤ 1 / 1000000000 := by
  obtain ⟨b, hb, heq⟩ := find_optimal_best_mem p fuel
  have hbcount : b.count = b.rectangles.length := by
    rcases List.mem_cons.mp hb with rfl | hb2
    · exact strict_grid_packing_count p 0 fuel
    · rcases List.mem_cons.mp hb2 with rfl | hx
      · exact strict_grid_packing_count p 90 fuel
      · simp at hx
  have hbcirc : b.circle = some ⟨p.radius, ⟨0, 0⟩⟩ := by
    rcases List.mem_cons.mp hb with rfl | hb2
    · exact strict_grid_packing_circle p 0 fuel
    · rcases List.mem_cons.mp hb2 with rfl | hx
      · exact strict_grid_packing_circle p 90 fuel
      · simp at hx
  have hrad : (0 : ℝ) < p.radius := by
    unfold RectanglePacker.radius; linarith
  have htot : (0 : ℝ) < Real.pi * p.radius ^ 2 := by positivity
  have hrd : p.radius = p.circle_diameter / 2 := rfl
  rw [heq]
  unfold calculate_efficiency
  rw [hbcirc]
  dsimp only
  rw [if_pos htot]
  dsimp only
  refine ⟨hbcount, by rw [hrd], ?_, rfl, rfl, ?_⟩
  · rw [sum_map_const, hbcount]
  · rw [sum_map_const, hbcount, ← hrd]
    have hz : (b.rectangles.length : ℝ) * (p.rect_width * p.rect_height) /
        (Real.pi * p.radius ^ 2) * 100 -
        (b.rectangles.length : ℝ) * p.rect_width * p.rect_height /
        (Real.pi * p.radius ^ 2) * 100 = 0 := by ring
    rw [hz, abs_zero]
    norm_num

/-- Witness for C7 at the test harness configuration (diameter 100,
15 x 10 rectangles): the waste identity at that concrete input. -/
theorem packing_metric_identities_witness :
    (find_optimal_packing ⟨100, 15, 10, 0, 0⟩ 1).waste =
      100 - (find_optimal_packing ⟨100, 15, 10, 0, 0⟩ 1).efficiency :=
  (packing_metric_identities ⟨100, 15, 10, 0, 0⟩ 1 (by norm_num)).2.2.2.2.1

end PackingLogic
